import Mathlib

/-!
Verification of the streaming response orchestration engine of
`ayushma/utils/openaiapi.py` against its natural-language specification.

The Python source is shallowly embedded below.  Text is modelled as
`List Char` (`Str`), Python's `time.time()` as a logical clock (a `Nat`
threaded through the computation; each call to `time.time()` returns the
current clock and advances it by one), Django model instances as records,
and every external collaborator (translation, speech synthesis, upload,
the language-model client, the reference retriever, the document store)
as an oracle bundled in `Externals`.  Fallible collaborators return
`Except`; a raised Python exception that escapes a code region is
modelled by an explicit `raised` outcome carrying the exception text.

The single token channel of the streaming path is modelled by the finite
list of values the producer will ever push, delivered in FIFO order.  A
consumer that exhausts this list models the situation in which the
producer pushes nothing further: the source loop
(`while True: if token_queue.empty(): continue`) then spins forever on
the `empty()` check and never reaches the timed `get` (the queue has a
single consumer, so `get` is only ever called when the queue is
non-empty and can never raise `queue.Empty`); this divergence is
represented by the explicit `stalled` outcome.
-/

/-- Python strings are modelled as lists of characters. -/
abbrev Str := List Char

/-- `ChatMessageType` enum of the source (`USER` messages and `AYUSHMA`
assistant messages are the only members used by `openaiapi.py`). -/
inductive ChatMessageType where
  | USER
  | AYUSHMA
deriving DecidableEq, Repr

/-- The `meta` JSON blob written on persisted chat messages: named timing
marks, absent marks being `none` (source builds it with `stats.get(...)`). -/
structure Meta where
  translate_start : Option Nat
  translate_end : Option Nat
  reference_start : Option Nat
  reference_end : Option Nat
  response_start : Option Nat
  response_end : Option Nat
  tts_start : Option Nat
  tts_end : Option Nat
  upload_start : Option Nat
  upload_end : Option Nat
deriving DecidableEq, Repr

/-- The all-absent `meta` blob. -/
def Meta.empty : Meta :=
  { translate_start := none, translate_end := none, reference_start := none,
    reference_end := none, response_start := none, response_end := none,
    tts_start := none, tts_end := none, upload_start := none, upload_end := none }

/-- The `stats` timing dictionary threaded through `converse` and
`handle_post_response`; each key of the source dictionary becomes an
`Option Nat` field (absent key = `none`). -/
structure Stats where
  request_translation_start_time : Option Nat
  request_translation_end_time : Option Nat
  reference_start_time : Option Nat
  reference_end_time : Option Nat
  response_start_time : Option Nat
  response_end_time : Option Nat
  response_translation_start_time : Option Nat
  response_translation_end_time : Option Nat
  tts_start_time : Option Nat
  tts_end_time : Option Nat
  upload_start_time : Option Nat
  upload_end_time : Option Nat
deriving DecidableEq, Repr

/-- The empty `stats` dictionary (`{}`). -/
def Stats.empty : Stats :=
  { request_translation_start_time := none, request_translation_end_time := none,
    reference_start_time := none, reference_end_time := none,
    response_start_time := none, response_end_time := none,
    response_translation_start_time := none, response_translation_end_time := none,
    tts_start_time := none, tts_end_time := none,
    upload_start_time := none, upload_end_time := none }

/-- A persisted `ChatMessage` row.  `message` is the display text (absent
until set), `original_message` the raw text, `reference_documents` the
external ids of the resolved reference documents (a set-valued M2M field,
modelled as the list of ids added).  `top_k` and `temperature` are opaque
pass-through configuration (the float temperature is modelled by an
opaque `Nat` id since it is never computed with). -/
structure ChatMessageRec where
  message : Option Str
  original_message : Str
  messageType : ChatMessageType
  language : Str
  reference_documents : List Str
  ayushma_audio_url : Option Str
  top_k : Option Nat
  temperature : Option Nat
  meta : Meta
deriving DecidableEq, Repr

/-- One event yielded to the caller, the record serialized by
`create_json_response` (the `"data: " + json + "\n\n"` framing is
elided; the fields are exactly the json keys). -/
structure Event where
  chat : Str
  input : Str
  delta : Str
  message : Str
  stop : Bool
  ayushma_voice : Option Str
deriving DecidableEq, Repr

/-- A value observed on the token channel.  `tok` is a model token;
`responseEnd` is the `RESPONSE_END` sentinel object.  `errVal e` models a
producer-pushed error value (the producer `get_aresponse` lives in
`ayushma/utils/langchain.py`, which is not part of the source under
study; modelled from the spec: on model-call failure the producer pushes
an error value, and feeding that value to `chat_response += next_token`
raises an exception carrying the error's text `e`, which the loop's
`except` clause catches). -/
inductive QueueValue where
  | tok (t : Str)
  | responseEnd
  | errVal (e : Str)
deriving DecidableEq, Repr

/-- The external collaborators consumed by the orchestration core
(spec section 6).  `translate`, `textToSpeech`, `uploadFile` and the two
model-client entry points may fail; a `.error e` result models the
collaborator raising an exception with text `e`.  `textToSpeech` may
also succeed with no audio (`.ok none`).  `documents` is the set of
external ids known to the `Document` store; `getReference` is the
retrieval subsystem (`get_reference`), whose internals (embeddings and
vector search) are out of scope. -/
structure Externals where
  translate : Str → Str → Except Str Str
  textToSpeech : Str → Str → Except Str (Option Str)
  uploadFile : Str → Except Str Str
  getResponse : Str → Str → List Str → Except Str Str
  getReference : Str → Str
  documents : List Str

/-- The chat row fields read by `converse` (prompt template is elided:
it only feeds the language-model oracle). -/
structure ChatCfg where
  external_id : Str
  project_external_id : Option Str
deriving DecidableEq, Repr

/-! ### Text helpers (embeddings of the Python string operations) -/

/-- Boolean prefix test on character lists. -/
def startsWith : Str → Str → Bool
  | [], _ => true
  | _ :: _, [] => false
  | c :: cs, d :: ds => c = d && startsWith cs ds

/-- Python `haystack.find(needle)`: index of the first occurrence, or
`none` where Python returns `-1`. -/
def findSub (needle : Str) : Str → Option Nat
  | [] => if startsWith needle [] then some 0 else none
  | c :: t =>
    if startsWith needle (c :: t) then some 0
    else (findSub needle t).map (· + 1)

/-- Python `s.strip(chars)`: drop characters of `cs` from both ends. -/
def stripChars (cs : List Char) (s : Str) : Str :=
  ((s.dropWhile (fun c => cs.contains c)).reverse.dropWhile (fun c => cs.contains c)).reverse

/-- The character set of the source's `strip(" .,[]*'\"")` (space, dot,
comma, square brackets, asterisk, apostrophe, double quote). -/
def stripSet : List Char :=
  [' ', '.', ',', '[', ']', Char.ofNat 42, Char.ofNat 39, Char.ofNat 34]

/-- Python whitespace stripped by a bare `.strip()` (space, tab, newline,
carriage return, vertical tab, form feed). -/
def pyWhitespace : List Char :=
  [' ', Char.ofNat 9, Char.ofNat 10, Char.ofNat 13, Char.ofNat 11, Char.ofNat 12]

/-- Fuel-driven worker for `replaceAll` (the fuel, initialized to the
length of the subject string, makes the recursion structural; it never
runs out because each step either consumes the head or drops at least
one character of a non-empty needle match). -/
def replaceAllGo (needle repl : Str) : Nat → Str → Str
  | 0, s => s
  | _ + 1, [] => []
  | fuel + 1, c :: rest =>
    if startsWith needle (c :: rest) then
      repl ++ replaceAllGo needle repl fuel ((c :: rest).drop needle.length)
    else
      c :: replaceAllGo needle repl fuel rest

/-- Python `s.replace(needle, repl)`: replace every non-overlapping
occurrence, scanning left to right (the empty-needle corner case is
never exercised by the source, which replaces `"\n"` and `"Ayushma: "`). -/
def replaceAll (needle repl s : Str) : Str :=
  if needle = [] then s else replaceAllGo needle repl s.length s

/-- Python string interpolation of an optional value (`None` prints as
`"None"`). -/
def optStr : Option Str → Str
  | none => ("None".toList)
  | some s => s

/-- Truthiness of the `ayushma_voice` bytes-or-None value
(`if ayushma_voice:`): `None` and empty bytes are falsy. -/
def truthyBytes : Option Str → Bool
  | none => false
  | some b => !b.isEmpty

/-! ### `add_reference_documents` (source lines 151-174) -/

/-- The `"References:"` marker scanned for by `add_reference_documents`. -/
def refMarker : Str := ("References:".toList)

/-- Embedding of `add_reference_documents(chat_message)`.  Returns the
(possibly) updated message together with the list of persistence writes
(`chat_message.save()` calls) it performed.  When the marker is absent
the source returns before touching or saving the message.  When present,
the id list after the marker is split on commas, each piece stripped of
surrounding punctuation and quotes, empty pieces dropped, the rest
deduplicated (the source's Python `set`; set iteration order is
immaterial because the target is a set-valued M2M field), unresolvable
ids silently skipped (`Document.DoesNotExist`), and the marker section is
truncated from the stored text, which is then stripped and saved. -/
def add_reference_documents (documents : List Str) (chat_message : ChatMessageRec) :
    ChatMessageRec × List ChatMessageRec :=
  let ref_text := refMarker
  let chat_text := chat_message.original_message
  match findSub ref_text chat_text with
  | none => (chat_message, [])
  | some ref_start_idx =>
    let doc_ids := (chat_text.drop (ref_start_idx + ref_text.length)).splitOn ','
    let doc_ids := doc_ids.map (fun doc_id => stripChars stripSet doc_id)
    let doc_ids := (doc_ids.filter (fun doc_id => doc_id ≠ [])).dedup
    let resolved := doc_ids.filter (fun doc_id => documents.contains doc_id)
    let updated :=
      { chat_message with
        reference_documents := chat_message.reference_documents ++ resolved,
        original_message := stripChars pyWhitespace (chat_text.take ref_start_idx) }
    (updated, [updated])

/-! ### `handle_post_response` (source lines 177-234) -/

/-- Result of the post-processing pipeline: either it raised (exception
text) or completed with the translated text, the audio url and the final
persisted message. -/
inductive PostOutcome where
  | raised (e : Str)
  | completed (translated : Str) (url : Option Str) (chat_message : ChatMessageRec)
deriving DecidableEq, Repr

/-- Full observable result of `handle_post_response`: outcome, the
persistence writes performed (in order), the `stats` dictionary and
clock as left behind (the dictionary is mutated in place by the source,
so its final value is visible to the caller even on a raise), and the
number of `upload_file` calls made. -/
structure PostResult where
  outcome : PostOutcome
  saves : List ChatMessageRec
  stats : Stats
  clock : Nat
  uploadCalls : Nat
deriving DecidableEq, Repr

/-- The `meta` blob written at the end of `handle_post_response`
(source lines 221-232) and by the streaming error path (lines 400-411):
ten `stats.get(...)` reads. -/
def metaFromStats (s : Stats) : Meta :=
  { translate_start := s.response_translation_start_time,
    translate_end := s.response_translation_end_time,
    reference_start := s.reference_start_time,
    reference_end := s.reference_end_time,
    response_start := s.response_start_time,
    response_end := s.response_end_time,
    tts_start := s.tts_start_time,
    tts_end := s.tts_end_time,
    upload_start := s.upload_start_time,
    upload_end := s.upload_end_time }

/-- The default language tag (`"en-IN"`): translation is skipped when the
caller's language equals it. -/
def enIN : Str := ("en-IN".toList)

/-- Embedding of `handle_post_response(...)`.  Faithful points: the
assistant message row is first created with only the raw text (write 1);
`add_reference_documents` may save it again; `response_translation_end_time`
is recorded even when translation did not run (source line 202 sits
outside the `if`); speech synthesis runs only when `generate_audio` is
true; upload runs only when the synthesized audio is truthy; none of the
three enhancement stages is wrapped in a `try`, so a raise from any of
them aborts the function before the final save (write 3) that sets the
display text, audio url and `meta`. -/
def handle_post_response (ext : Externals) (chat_response : Str)
    (match_number : Nat) (user_language : Str) (temperature : Nat)
    (stats : Stats) (language : Str) (generate_audio : Bool) (clock : Nat) :
    PostResult :=
  let chat_message : ChatMessageRec :=
    { message := none, original_message := chat_response,
      messageType := ChatMessageType.AYUSHMA, language := language,
      reference_documents := [], ayushma_audio_url := none,
      top_k := some match_number, temperature := some temperature,
      meta := Meta.empty }
  let refStep := add_reference_documents ext.documents chat_message
  let msg1 := refStep.fst
  let saves := chat_message :: refStep.snd
  let tres : Except Str Str × Stats × Nat :=
    if user_language ≠ enIN then
      let stats1 := { stats with response_translation_start_time := some clock }
      (ext.translate user_language msg1.original_message, stats1, clock + 1)
    else (Except.ok msg1.original_message, stats, clock)
  match tres with
  | (Except.error err, statsT, clockT) =>
    { outcome := PostOutcome.raised err, saves := saves, stats := statsT,
      clock := clockT, uploadCalls := 0 }
  | (Except.ok translated_chat_response, statsT, clockT) =>
    let stats2 := { statsT with response_translation_end_time := some clockT }
    let clock2 := clockT + 1
    let ares : Except Str (Option Str) × Stats × Nat :=
      if generate_audio then
        let stats3 := { stats2 with tts_start_time := some clock2 }
        match ext.textToSpeech translated_chat_response user_language with
        | Except.error err => (Except.error err, stats3, clock2 + 1)
        | Except.ok voice =>
          (Except.ok voice, { stats3 with tts_end_time := some (clock2 + 1) }, clock2 + 2)
      else (Except.ok none, stats2, clock2)
    match ares with
    | (Except.error err, statsA, clockA) =>
      { outcome := PostOutcome.raised err, saves := saves, stats := statsA,
        clock := clockA, uploadCalls := 0 }
    | (Except.ok ayushma_voice, statsA, clockA) =>
      let ures : Except Str (Option Str) × Stats × Nat × Nat :=
        if truthyBytes ayushma_voice then
          let stats5 := { statsA with upload_start_time := some clockA }
          match ext.uploadFile (optStr ayushma_voice) with
          | Except.error err => (Except.error err, stats5, clockA + 1, 1)
          | Except.ok u =>
            (Except.ok (some u), { stats5 with upload_end_time := some (clockA + 1) },
              clockA + 2, 1)
        else (Except.ok none, statsA, clockA, 0)
      match ures with
      | (Except.error err, statsU, clockU, upc) =>
        { outcome := PostOutcome.raised err, saves := saves, stats := statsU,
          clock := clockU, uploadCalls := upc }
      | (Except.ok url, statsU, clockU, upc) =>
        let final_message : ChatMessageRec :=
          { msg1 with
            message := some translated_chat_response,
            ayushma_audio_url := url, meta := metaFromStats statsU }
        { outcome := PostOutcome.completed translated_chat_response url final_message,
          saves := saves ++ [final_message], stats := statsU, clock := clockU,
          uploadCalls := upc }

/-! ### The streaming consumer loop (source lines 320-415) -/

/-- The per-turn fixed context of the streaming consumer loop: the
externals and the `converse` locals it closes over. -/
structure LoopCtx where
  ext : Externals
  chatExternalId : Str
  local_translated_text : Str
  match_number : Nat
  user_language : Str
  temperature : Nat
  language : Str
  generate_audio : Bool

/-- The Delta event yielded for one token (source lines 379-386):
carries the token and the cumulative text including it, `stop := false`,
no audio. -/
def deltaEvent (c : LoopCtx) (next_token chat_response : Str) : Event :=
  { chat := c.chatExternalId, input := c.local_translated_text,
    delta := next_token, message := chat_response, stop := false,
    ayushma_voice := none }

/-- The terminal success event (source lines 369-376): empty delta, the
translated final text, `stop := true`, the audio url. -/
def finalEvent (c : LoopCtx) (translated : Str) (url : Option Str) : Event :=
  { chat := c.chatExternalId, input := c.local_translated_text,
    delta := [], message := translated, stop := true, ayushma_voice := url }

/-- The terminal event of the error path (source lines 413-415): empty
delta, the ORIGINAL (untranslated) error text `str(e)`, `stop := true`,
no audio. -/
def errorEvent (c : LoopCtx) (e : Str) : Event :=
  { chat := c.chatExternalId, input := c.local_translated_text,
    delta := [], message := e, stop := true, ayushma_voice := none }

/-- The error `ChatMessage` persisted by the error path (source lines
394-412): display text is the translated error text, raw text the
original, role `AYUSHMA`, `meta` snapshotting the current stats. -/
def errorTurn (c : LoopCtx) (original translated : Str) (stats : Stats) :
    ChatMessageRec :=
  { message := some translated, original_message := original,
    messageType := ChatMessageType.AYUSHMA, language := c.language,
    reference_documents := [], ayushma_audio_url := none,
    top_k := none, temperature := none, meta := metaFromStats stats }

/-- Outcome of the except-clause error path: `handled` carries the
persisted error turn and the terminal event; `raised` means the handler
itself raised (its `translate_text` call is not guarded by a `try`). -/
inductive ErrorPathOutcome where
  | raised (e : Str)
  | handled (turn : ChatMessageRec) (ev : Event)
deriving DecidableEq, Repr

/-- Embedding of the streaming `except Exception as e` clause (source
lines 387-415).  `e` is the text of the caught exception.  The error
text is translated when the caller's language is not the default — with
NO surrounding `try`, so a failing translation raises out of the
handler. -/
def stream_error_path (c : LoopCtx) (e : Str) (stats : Stats) : ErrorPathOutcome :=
  let error_text := e
  let tr : Except Str Str :=
    if c.user_language ≠ enIN then c.ext.translate c.user_language error_text
    else Except.ok error_text
  match tr with
  | Except.error e2 => ErrorPathOutcome.raised e2
  | Except.ok translated_error_text =>
    ErrorPathOutcome.handled (errorTurn c error_text translated_error_text stats)
      (errorEvent c error_text)

/-- Terminal state of the streaming consumer loop.  `stalled` models the
divergence of the busy-wait (`if token_queue.empty(): continue`) once the
producer pushes nothing further — the timed `get` is then never reached,
so no timeout exception can occur.  `raised` means an exception escaped
the whole turn (the error path itself failed). -/
inductive StreamTermination where
  | finishedOk
  | finishedError
  | stalled
  | raised (e : Str)
deriving DecidableEq, Repr

/-- Full observable result of the streaming consumer loop: the events
yielded (in order), the persistence writes performed, the final stats
dictionary and clock, and the number of upload calls. -/
structure LoopResult where
  events : List Event
  saves : List ChatMessageRec
  stats : Stats
  clock : Nat
  uploadCalls : Nat
  outcome : StreamTermination
deriving DecidableEq, Repr

/-- Route an exception with text `e` to the error path and package the
loop result (the handler performs no `time.time()` call and no stats
write, so stats and clock pass through). -/
def runExceptPath (c : LoopCtx) (e : Str) (events : List Event)
    (saves : List ChatMessageRec) (stats : Stats) (clock : Nat)
    (uploadCalls : Nat) : LoopResult :=
  match stream_error_path c e stats with
  | ErrorPathOutcome.raised e2 =>
    { events := events, saves := saves, stats := stats, clock := clock,
      uploadCalls := uploadCalls, outcome := StreamTermination.raised e2 }
  | ErrorPathOutcome.handled turn ev =>
    { events := events ++ [ev], saves := saves ++ [turn], stats := stats,
      clock := clock, uploadCalls := uploadCalls,
      outcome := StreamTermination.finishedError }

/-- The sentinel branch of the loop (source lines 352-377): record
`response_end_time`, run `handle_post_response` on the accumulated text,
and on success yield the Final event and break; a raise from
post-processing is caught by the surrounding `try` and routed to the
error path. -/
def finalizeTurn (c : LoopCtx) (stats : Stats) (clock : Nat)
    (chat_response : Str) (events : List Event) : LoopResult :=
  match handle_post_response c.ext chat_response c.match_number
      c.user_language c.temperature { stats with response_end_time := some clock }
      c.language c.generate_audio (clock + 1) with
  | { outcome := PostOutcome.completed translated url _m, saves := saves,
      stats := stats2, clock := clock2, uploadCalls := upc } =>
    { events := events ++ [finalEvent c translated url], saves := saves,
      stats := stats2, clock := clock2, uploadCalls := upc,
      outcome := StreamTermination.finishedOk }
  | { outcome := PostOutcome.raised e, saves := saves, stats := stats2,
      clock := clock2, uploadCalls := upc } =>
    runExceptPath c e events saves stats2 clock2 upc

/-- Embedding of the streaming consumer loop (source lines 342-415),
processing the queued values in FIFO order.  Faithful points: the
`skip_token` window is checked BEFORE the sentinel test, so while the
skip count is positive EVERY popped value — tokens, the sentinel, error
values alike — is decremented away and discarded; an exhausted arrival
list sends the busy-wait spinning forever (`stalled`); a token is
appended to the cumulative text and yielded as a Delta carrying that
cumulative text; the sentinel triggers finalization; an error value
raises at the string concatenation and is caught by the `except`
clause. -/
def consumeLoop (c : LoopCtx) :
    Stats → Nat → Nat → Str → List Event → List QueueValue → LoopResult
  | stats, clock, _skip, _chat_response, events, [] =>
    { events := events, saves := [], stats := stats, clock := clock,
      uploadCalls := 0, outcome := StreamTermination.stalled }
  | stats, clock, skip + 1, chat_response, events, _v :: rest =>
    consumeLoop c stats clock skip chat_response events rest
  | stats, clock, 0, chat_response, events, v :: rest =>
    match v with
    | QueueValue.responseEnd => finalizeTurn c stats clock chat_response events
    | QueueValue.tok t =>
      consumeLoop c stats clock 0 (chat_response ++ t)
        (events ++ [deltaEvent c t (chat_response ++ t)]) rest
    | QueueValue.errVal e => runExceptPath c e events [] stats clock 0

/-- `skip_token = len("Ayushma: ")` (source line 343): the CHARACTER
length of the role label string, i.e. 9 — not a count of queue tokens. -/
def skip_token : Nat := ("Ayushma: ".toList).length

/-- The Delta events produced by a run of surviving tokens starting from
cumulative text `acc` (specification helper used to state the loop's
event stream). -/
def mkDeltas (c : LoopCtx) (acc : Str) : List Str → List Event
  | [] => []
  | t :: r => deltaEvent c t (acc ++ t) :: mkDeltas c (acc ++ t) r

/-! ### `converse` (source lines 237-415) -/

/-- Terminal status of one `converse` call: the generator finished
normally, diverged in the busy-wait, or raised. -/
inductive ConverseOutcome where
  | finished
  | stalled
  | raised (e : Str)
deriving DecidableEq, Repr

/-- Full observable result of one `converse` call: events yielded (in
streaming mode), the chat message yielded (in non-streaming mode), every
persisted row in creation order, the final stats dictionary and clock,
and the number of reference-retrieval, model and upload calls. -/
structure ConverseResult where
  events : List Event
  yieldedTurn : Option ChatMessageRec
  created : List ChatMessageRec
  stats : Stats
  clock : Nat
  refCalls : Nat
  llmCalls : Nat
  uploadCalls : Nat
  outcome : ConverseOutcome
deriving DecidableEq, Repr

/-- The arguments of one `converse` call.  `stats := none` models a call
site that omits the `stats` keyword argument, so the call operates on
the function's shared mutable default dictionary (see `runCalls`);
`arrivals` is the sequence of values the producer task will push for
this turn. -/
structure CallArgs where
  english_text : Str
  local_translated_text : Str
  openai_key : Option Str
  chat : ChatCfg
  previousMessages : List ChatMessageRec
  match_number : Nat
  user_language : Str
  temperature : Nat
  stats : Option Stats
  stream : Bool
  references : Option Str
  generate_audio : Bool
  arrivals : List QueueValue

/-- Python `if not openai_key:` — missing (`None`) and empty keys are
both falsy. -/
def keyMissing : Option Str → Bool
  | none => true
  | some k => k.isEmpty

/-- The exception text raised for a missing key (source line 251). -/
def keyErrorText : Str :=
  ("OpenAI-Key header is required to create a chat or converse".toList)

/-- The LangChain history built from the prior turns of the conversation
(source lines 285-295): each prior message rendered with its role label
(only the rendered strings matter, as they feed the model oracle). -/
def mkChatHistory (msgs : List ChatMessageRec) : List Str :=
  msgs.foldl
    (fun acc m =>
      match m.messageType with
      | ChatMessageType.USER => acc ++ [("Nurse: ".toList) ++ optStr m.message]
      | ChatMessageType.AYUSHMA => acc ++ [("Ayushma: ".toList) ++ optStr m.message])
    []

/-- Map the loop's termination status onto the generator's. -/
def convOutcome : StreamTermination → ConverseOutcome
  | StreamTermination.finishedOk => ConverseOutcome.finished
  | StreamTermination.finishedError => ConverseOutcome.finished
  | StreamTermination.stalled => ConverseOutcome.stalled
  | StreamTermination.raised e => ConverseOutcome.raised e

/-- Embedding of `converse(...)` for one call, given the resolved
`stats` dictionary (the caller's own, or the shared default — see
`runCalls`) and the current clock.  Faithful points: the key check is the
very first statement, before any row is created, any retrieval or any
model call; the user turn is persisted next; reference retrieval runs
only when no `references` argument was passed (Python truthiness: an
empty string does not count) and the chat has a project; the
non-streaming path strips every `"Ayushma: "` occurrence from the single
response and runs post-processing directly, yielding the message row
itself; the streaming path starts the producer task and hands over to
the consumer loop with `skip_token` = 9. -/
def converse (ext : Externals) (a : CallArgs) (stats : Stats) (clock : Nat) :
    ConverseResult :=
  if keyMissing a.openai_key then
    { events := [], yieldedTurn := none, created := [], stats := stats,
      clock := clock, refCalls := 0, llmCalls := 0, uploadCalls := 0,
      outcome := ConverseOutcome.raised keyErrorText }
  else
    let english_text := replaceAll [Char.ofNat 10] [' '] a.english_text
    let language := ((a.user_language.splitOn '-').headD [])
    let nurse_query : ChatMessageRec :=
      { message := some a.local_translated_text, original_message := english_text,
        messageType := ChatMessageType.USER, language := language,
        reference_documents := [], ayushma_audio_url := none,
        top_k := none, temperature := none,
        meta := { Meta.empty with
                  translate_start := stats.request_translation_start_time,
                  translate_end := stats.request_translation_end_time } }
    let stats1 := { stats with reference_start_time := some clock }
    let clock1 := clock + 1
    let refProvided : Bool :=
      match a.references with
      | some r => !r.isEmpty
      | none => false
    let refR : Str × Nat :=
      if refProvided then (a.references.getD [], 0)
      else
        match a.chat.project_external_id with
        | some _pid => (ext.getReference english_text, 1)
        | none => ([], 0)
    let stats2 := { stats1 with reference_end_time := some clock1 }
    let clock2 := clock1 + 1
    let stats3 := { stats2 with response_start_time := some clock2 }
    let clock3 := clock2 + 1
    let chat_history := mkChatHistory a.previousMessages
    if a.stream = false then
      match ext.getResponse english_text refR.fst chat_history with
      | Except.error err =>
        { events := [], yieldedTurn := none, created := [nurse_query],
          stats := stats3, clock := clock3, refCalls := refR.snd, llmCalls := 1,
          uploadCalls := 0, outcome := ConverseOutcome.raised err }
      | Except.ok response =>
        let chat_response := replaceAll ("Ayushma: ".toList) [] response
        let stats4 := { stats3 with response_end_time := some clock3 }
        let clock4 := clock3 + 1
        let post := handle_post_response ext chat_response a.match_number
          a.user_language a.temperature stats4 language a.generate_audio clock4
        match post.outcome with
        | PostOutcome.raised err =>
          { events := [], yieldedTurn := none,
            created := nurse_query :: post.saves, stats := post.stats,
            clock := post.clock, refCalls := refR.snd, llmCalls := 1,
            uploadCalls := post.uploadCalls, outcome := ConverseOutcome.raised err }
        | PostOutcome.completed _t _u m =>
          { events := [], yieldedTurn := some m,
            created := nurse_query :: post.saves, stats := post.stats,
            clock := post.clock, refCalls := refR.snd, llmCalls := 1,
            uploadCalls := post.uploadCalls, outcome := ConverseOutcome.finished }
    else
      let c : LoopCtx :=
        { ext := ext, chatExternalId := a.chat.external_id,
          local_translated_text := a.local_translated_text,
          match_number := a.match_number, user_language := a.user_language,
          temperature := a.temperature, language := language,
          generate_audio := a.generate_audio }
      let loop := consumeLoop c stats3 clock3 skip_token [] [] a.arrivals
      { events := loop.events, yieldedTurn := none,
        created := nurse_query :: loop.saves, stats := loop.stats,
        clock := loop.clock, refCalls := refR.snd, llmCalls := 1,
        uploadCalls := loop.uploadCalls, outcome := convOutcome loop.outcome }

/-- Run a sequence of `converse` calls, modelling Python's mutable
default argument: `stats={}` is evaluated ONCE at function definition,
so every call that omits `stats` reads and mutates the same shared
dictionary, whose state survives from call to call; a call passing its
own dictionary leaves the shared one untouched.  Returns the call
results in order plus the final shared dictionary and clock. -/
def runCalls (ext : Externals) :
    Stats → Nat → List CallArgs → List ConverseResult × Stats × Nat
  | shared, clock, [] => ([], shared, clock)
  | shared, clock, a :: rest =>
    let r := converse ext a (a.stats.getD shared) clock
    let shared1 := if a.stats.isNone then r.stats else shared
    let rec1 := runCalls ext shared1 r.clock rest
    (r :: rec1.fst, rec1.snd)

/-- The `tts_start` mark of the `meta` of the assistant turn yielded by
the `i`-th call of a run (observability helper for the shared-default
leak). -/
def persistedTtsStartAt (rs : List ConverseResult) (i : Nat) : Option (Option Nat) :=
  (rs.get? i).bind (fun r => r.yieldedTurn.map (fun m => m.meta.tts_start))

/-! ### Concrete fixtures used by witnesses and counterexamples -/

/-- Benign externals: translation echoes its input, speech synthesis
yields audio, upload yields a url, the model replies with the role
prefix, the document store knows ids 12 and 7. -/
def ext0 : Externals :=
  { translate := fun _l t => Except.ok t,
    textToSpeech := fun _t _l => Except.ok (some ("AUDIO".toList)),
    uploadFile := fun _b => Except.ok ("url".toList),
    getResponse := fun _q _r _h => Except.ok ("Ayushma: Hi".toList),
    getReference := fun _q => [],
    documents := [("12".toList), ("7".toList)] }

/-- Externals whose translation service fails. -/
def extBadTranslate : Externals :=
  { ext0 with translate := fun _l _t => Except.error ("translation backend down".toList) }

/-- A default-language (`en-IN`) loop context over the benign externals,
with speech synthesis disabled. -/
def loopCtx0 : LoopCtx :=
  { ext := ext0, chatExternalId := ("c1".toList),
    local_translated_text := ("hello".toList), match_number := 1,
    user_language := enIN, temperature := 0, language := ("en".toList),
    generate_audio := false }

/-- A non-default-language (`hi-IN`) loop context over the failing
translator. -/
def loopCtxHiBad : LoopCtx :=
  { loopCtx0 with
    ext := extBadTranslate, user_language := ("hi-IN".toList),
    language := ("hi".toList) }

/-- The pushed value sequence of spec Scenario B: the five tokens
`["Ayushma:", " Hi", " there", "References:", " 12, 7"]` followed by the
sentinel. -/
def scenarioB : List QueueValue :=
  [QueueValue.tok ("Ayushma:".toList), QueueValue.tok (" Hi".toList),
   QueueValue.tok (" there".toList), QueueValue.tok ("References:".toList),
   QueueValue.tok (" 12, 7".toList), QueueValue.responseEnd]


/-- A non-default-language (`hi-IN`) loop context over the benign
(echoing) translator. -/
def loopCtxHi : LoopCtx :=
  { loopCtx0 with
    user_language := ("hi-IN".toList), language := ("hi".toList) }

/-- Benign externals whose speech synthesis reports no audio
(`text_to_speech` returning `None`). -/
def extNoAudio : Externals :=
  { ext0 with textToSpeech := fun _t _l => Except.ok none }

/-- A chat belonging to no project (so no retrieval is attempted). -/
def chat0 : ChatCfg := { external_id := ("c1".toList), project_external_id := none }

/-- A non-streaming `converse` call that OMITS the `stats` argument and
has speech synthesis enabled. -/
def argsA : CallArgs :=
  { english_text := ("hello".toList), local_translated_text := ("hello".toList),
    openai_key := some ("k".toList), chat := chat0, previousMessages := [],
    match_number := 1, user_language := enIN, temperature := 0,
    stats := none, stream := false, references := none, generate_audio := true,
    arrivals := [] }

/-- The same call with speech synthesis disabled (still omitting
`stats`). -/
def argsB : CallArgs := { argsA with generate_audio := false }

/-- Checker for the speech-synthesis-disabled contract of one
post-processing run: no upload call was made, the stats dictionary ends
with no TTS/upload marks, and if the run completed, the persisted turn
has no audio reference and its `meta` records no TTS/upload marks. -/
def noAudioRecorded : PostOutcome → Bool
  | PostOutcome.raised _ => true
  | PostOutcome.completed _ u m =>
    u.isNone && m.ayushma_audio_url.isNone && m.meta.tts_start.isNone &&
      m.meta.tts_end.isNone && m.meta.upload_start.isNone && m.meta.upload_end.isNone

/-- Bundled invariant for claim C8 over a full `PostResult`. -/
def audioDisabledInvariant (r : PostResult) : Bool :=
  (r.uploadCalls == 0) && r.stats.tts_start_time.isNone &&
    r.stats.tts_end_time.isNone && r.stats.upload_start_time.isNone &&
    r.stats.upload_end_time.isNone && noAudioRecorded r.outcome

/-! ### Helper lemmas -/

/-- A successful `startsWith` test yields the tail witnessing the
prefix. -/
theorem startsWith_exists (n : Str) :
    ∀ h : Str, startsWith n h = true → ∃ t, h = n ++ t := by
  induction n with
  | nil => intro h _; exact ⟨h, rfl⟩
  | cons c cs ih =>
    intro h hs
    cases h with
    | nil => simp [startsWith] at hs
    | cons d ds =>
      simp only [startsWith, Bool.and_eq_true, decide_eq_true_eq] at hs
      obtain ⟨t, ht⟩ := ih ds hs.2
      exact ⟨t, by simp [hs.1, ht]⟩

/-- A found occurrence is an occurrence: `findSub` returning an index
means the needle occurs inside the haystack. -/
theorem findSub_some_occurs (n : Str) :
    ∀ (hay : Str) (i : Nat), findSub n hay = some i → n <:+: hay := by
  intro hay
  induction hay with
  | nil =>
    intro i h
    unfold findSub at h
    split at h
    · next hs =>
      obtain ⟨t, ht⟩ := startsWith_exists n [] hs
      exact ⟨[], t, by simp [← ht]⟩
    · exact absurd h (by simp)
  | cons d ds ih =>
    intro i h
    unfold findSub at h
    split at h
    · next hs =>
      obtain ⟨t, ht⟩ := startsWith_exists n (d :: ds) hs
      exact ⟨[], t, by simp [← ht]⟩
    · next hs =>
      obtain ⟨j, hj, _⟩ := Option.map_eq_some'.mp h
      obtain ⟨s, u, hsu⟩ := ih j hj
      exact ⟨d :: s, u, by simp [← hsu]⟩

/-- Where the needle does not occur, `findSub` finds nothing (Python
`find` returns `-1`). -/
theorem findSub_eq_none (n hay : Str) (h : ¬ n <:+: hay) :
    findSub n hay = none := by
  cases hf : findSub n hay with
  | none => rfl
  | some i => exact absurd (findSub_some_occurs n hay i hf) h

/-- `add_reference_documents` without a marker: the message is returned
untouched and no save is performed (shared helper for C5 and C7). -/
theorem add_reference_documents_no_marker (documents : List Str)
    (m : ChatMessageRec) (h : ¬ refMarker <:+: m.original_message) :
    add_reference_documents documents m = (m, []) := by
  simp only [add_reference_documents]
  rw [findSub_eq_none _ _ h]

/-- Skipping consumes queue values one for one, whatever they are: a
loop entered with skip budget `n` behaves like a skip-free loop on the
arrivals with their first `n` values removed. -/
theorem consumeLoop_skip_drop (c : LoopCtx) (stats : Stats) (clock : Nat) :
    ∀ (skip : Nat) (vs : List QueueValue) (acc : Str) (events : List Event),
    consumeLoop c stats clock skip acc events vs =
      consumeLoop c stats clock 0 acc events (vs.drop skip) := by
  intro skip
  induction skip with
  | zero => intro vs acc events; rfl
  | succ n ih =>
    intro vs acc events
    cases vs with
    | nil => rfl
    | cons v rest => simpa [consumeLoop] using ih rest acc events

/-- A skip-free run over tokens only: every token is appended and
yielded as a Delta, and the exhausted channel leaves the loop spinning
(`stalled`) with stats and clock untouched. -/
theorem consumeLoop_toks (c : LoopCtx) (stats : Stats) (clock : Nat) :
    ∀ (ts : List Str) (acc : Str) (events : List Event),
    consumeLoop c stats clock 0 acc events (ts.map QueueValue.tok) =
      { events := events ++ mkDeltas c acc ts, saves := [], stats := stats,
        clock := clock, uploadCalls := 0,
        outcome := StreamTermination.stalled } := by
  intro ts
  induction ts with
  | nil => intro acc events; simp [consumeLoop, mkDeltas]
  | cons t r ih =>
    intro acc events
    simp only [List.map_cons, consumeLoop, mkDeltas]
    rw [ih]
    simp

/-- A skip-free run over tokens followed by the sentinel: the Deltas are
emitted in order and the sentinel triggers finalization on the
accumulated text. -/
theorem consumeLoop_toks_end (c : LoopCtx) (stats : Stats) (clock : Nat) :
    ∀ (ts : List Str) (acc : Str) (events : List Event),
    consumeLoop c stats clock 0 acc events
        (ts.map QueueValue.tok ++ [QueueValue.responseEnd]) =
      finalizeTurn c stats clock (acc ++ ts.flatten) (events ++ mkDeltas c acc ts) := by
  intro ts
  induction ts with
  | nil => intro acc events; simp [consumeLoop, mkDeltas]
  | cons t r ih =>
    intro acc events
    simp only [List.map_cons, List.cons_append, consumeLoop, mkDeltas, List.append_eq]
    rw [ih]
    simp [List.append_assoc]

/-- The `n`-th Delta of a run of surviving tokens carries the `n`-th
token together with the concatenation of the survivors up to and
including it. -/
theorem mkDeltas_get (c : LoopCtx) :
    ∀ (ts : List Str) (acc : Str) (n : Nat), n < ts.length →
    (mkDeltas c acc ts).get? n =
      some (deltaEvent c (ts.getD n []) (acc ++ (ts.take (n + 1)).flatten)) := by
  intro ts
  induction ts with
  | nil => intro acc n h; exact absurd h (by simp)
  | cons t r ih =>
    intro acc n h
    cases n with
    | zero => simp [mkDeltas]
    | succ m =>
      simp only [mkDeltas, List.get?_cons_succ, List.getD_cons_succ]
      rw [ih (acc ++ t) m (by simpa using h)]
      simp [List.append_assoc]

/-! ### Claim theorems -/

/-- C1: the claimed timeout behaviour does not exist.  When the producer
pushes nothing, the consumer loop spins forever in its
`if token_queue.empty(): continue` busy-wait and never reaches the timed
`get`, so the turn emits NO terminal Error event and persists NO error
Turn (the claim says the pop times out and produces exactly one of
each): the run over an empty arrival sequence ends `stalled` with zero
events and zero persistence writes. -/
theorem C1_busy_wait_never_times_out :
    consumeLoop loopCtx0 Stats.empty 0 skip_token [] [] [] =
      { events := [], saves := [], stats := Stats.empty, clock := 0,
        uploadCalls := 0, outcome := StreamTermination.stalled } := rfl

/-- C2 counterexample: a stream whose sentinel arrives while the skip
count is still positive does NOT terminate with a Final event.  With the
sentinel as the very first popped value, the `skip_token > 0` branch
(checked BEFORE the sentinel test, source lines 349-351) silently
discards it, after which the loop spins forever: no events, no Final, no
success state. -/
theorem C2_sentinel_swallowed_by_skip :
    consumeLoop loopCtx0 Stats.empty 0 skip_token [] [] [QueueValue.responseEnd] =
      { events := [], saves := [], stats := Stats.empty, clock := 0,
        uploadCalls := 0, outcome := StreamTermination.stalled } := rfl

/-- C2 (amended): when the sentinel is popped AFTER the skip window is
exhausted (at least `skip_token` = 9 values precede it) and finalization
completes, the consumer stops producing Delta events, runs finalization
on the accumulated survivors, emits a terminal Final event after the
Deltas, and terminates in the success state. -/
theorem C2_sentinel_after_skip_finalizes (c : LoopCtx) (s : Stats) (k : Nat)
    (ts : List Str) (t : Str) (u : Option Str) (m : ChatMessageRec)
    (sv : List ChatMessageRec) (s2 : Stats) (k2 up : Nat)
    (hlen : skip_token ≤ ts.length)
    (hpost : handle_post_response c.ext ((ts.drop skip_token).flatten)
        c.match_number c.user_language c.temperature
        { s with response_end_time := some k } c.language c.generate_audio
        (k + 1) =
      { outcome := PostOutcome.completed t u m, saves := sv, stats := s2,
        clock := k2, uploadCalls := up }) :
    consumeLoop c s k skip_token [] []
        (ts.map QueueValue.tok ++ [QueueValue.responseEnd]) =
      { events := mkDeltas c [] (ts.drop skip_token) ++ [finalEvent c t u],
        saves := sv, stats := s2, clock := k2, uploadCalls := up,
        outcome := StreamTermination.finishedOk } := by
  rw [consumeLoop_skip_drop]
  have hd : (ts.map QueueValue.tok ++ [QueueValue.responseEnd]).drop skip_token
      = (ts.drop skip_token).map QueueValue.tok ++ [QueueValue.responseEnd] := by
    rw [List.drop_append_of_le_length (by simpa using hlen), ← List.map_drop]
  rw [hd, consumeLoop_toks_end]
  simp only [List.nil_append]
  unfold finalizeTurn
  rw [hpost]

/-- Witness inputs for C2: nine placeholder values filling the skip
window, one surviving token, then the sentinel. -/
def c2ts : List Str := List.replicate 9 ("x".toList) ++ [("a".toList)]

/-- The assistant row as first created by `handle_post_response` in the
C2 witness run. -/
def c2msg0 : ChatMessageRec :=
  { message := none, original_message := ("a".toList),
    messageType := ChatMessageType.AYUSHMA, language := ("en".toList),
    reference_documents := [], ayushma_audio_url := none, top_k := some 1,
    temperature := some 0, meta := Meta.empty }

/-- The stats dictionary left by the C2 witness run. -/
def c2stats : Stats :=
  { Stats.empty with
    response_end_time := some 0, response_translation_end_time := some 1 }

/-- The finally persisted assistant row of the C2 witness run. -/
def c2final : ChatMessageRec :=
  { c2msg0 with message := some ("a".toList), meta := metaFromStats c2stats }

/-- Witness for C2 (amended) at concrete inputs. -/
theorem C2_sentinel_after_skip_finalizes_witness :
    consumeLoop loopCtx0 Stats.empty 0 skip_token [] []
        (c2ts.map QueueValue.tok ++ [QueueValue.responseEnd]) =
      { events := mkDeltas loopCtx0 [] (c2ts.drop skip_token) ++
          [finalEvent loopCtx0 ("a".toList) none],
        saves := [c2msg0, c2final], stats := c2stats, clock := 2,
        uploadCalls := 0, outcome := StreamTermination.finishedOk } :=
  C2_sentinel_after_skip_finalizes loopCtx0 Stats.empty 0 c2ts ("a".toList)
    none c2final [c2msg0, c2final] c2stats 2 0 (by decide) (by decide)

/-- C3: the skip count is the CHARACTER length of `"Ayushma: "` (9), not
the length of the role-prefix token sequence (1), and the skip test
precedes the sentinel test — so on the Scenario B stream (five tokens
then the sentinel) every popped value falls inside the skip window and
is discarded: the consumer emits NO Delta events, NO Final event,
persists nothing, and the loop then spins forever on the empty channel.
The claim's predicted Deltas for " Hi" and " there" and Final "Hi there"
never happen. -/
theorem C3_scenario_b_emits_nothing :
    consumeLoop loopCtx0 Stats.empty 0 skip_token [] [] scenarioB =
      { events := [], saves := [], stats := Stats.empty, clock := 0,
        uploadCalls := 0, outcome := StreamTermination.stalled } := rfl

/-- The arrivals used for the C4 counterexample: nine tokens filling the
skip window, then a producer error value. -/
def c4arrivals : List QueueValue :=
  List.replicate skip_token (QueueValue.tok ("x".toList)) ++
    [QueueValue.errVal ("boom".toList)]

/-- C4 counterexample: a producer error on a non-default-language turn
whose error-text translation fails.  The `except` clause calls
`translate_text` with no surrounding `try`, so the translation failure
propagates out of the turn: the run ends `raised` — NO error Turn is
persisted and NO terminal event is emitted, contradicting the claim that
translation failures are swallowed and the path always produces a single
terminal event without raising. -/
theorem C4_translation_failure_escapes_error_path :
    consumeLoop loopCtxHiBad Stats.empty 0 skip_token [] [] c4arrivals =
      { events := [], saves := [], stats := Stats.empty, clock := 0,
        uploadCalls := 0,
        outcome := StreamTermination.raised ("translation backend down".toList) } := by
  decide

/-- C4 (amended): when a streaming failure reaches the exception handler
after the skip window and the error-text translation succeeds, the error
path persists exactly one error Turn — raw text the error's text,
display text its translation, `meta` snapshotting the current stats —
and emits exactly one terminal event carrying the original error text;
only a failure of the translation itself escapes the turn. -/
theorem C4_error_path_single_terminal_event (c : LoopCtx) (s : Stats)
    (k : Nat) (d e t : Str) (hl : c.user_language ≠ enIN)
    (ht : c.ext.translate c.user_language e = Except.ok t) :
    consumeLoop c s k skip_token [] []
        (List.replicate skip_token (QueueValue.tok d) ++ [QueueValue.errVal e]) =
      { events := [errorEvent c e], saves := [errorTurn c e t s], stats := s,
        clock := k, uploadCalls := 0,
        outcome := StreamTermination.finishedError } := by
  rw [consumeLoop_skip_drop]
  have hd : (List.replicate skip_token (QueueValue.tok d) ++
      [QueueValue.errVal e]).drop skip_token = [QueueValue.errVal e] :=
    List.drop_left' (List.length_replicate skip_token (QueueValue.tok d))
  rw [hd]
  show runExceptPath c e [] [] s k 0 = _
  simp [runExceptPath, stream_error_path, hl, ht]

/-- Witness for C4 (amended) at concrete inputs (echoing translator). -/
theorem C4_error_path_single_terminal_event_witness :
    consumeLoop loopCtxHi Stats.empty 0 skip_token [] []
        (List.replicate skip_token (QueueValue.tok ("x".toList)) ++
          [QueueValue.errVal ("boom".toList)]) =
      { events := [errorEvent loopCtxHi ("boom".toList)],
        saves := [errorTurn loopCtxHi ("boom".toList) ("boom".toList) Stats.empty],
        stats := Stats.empty, clock := 0, uploadCalls := 0,
        outcome := StreamTermination.finishedError } :=
  C4_error_path_single_terminal_event loopCtxHi Stats.empty 0 ("x".toList)
    ("boom".toList) ("boom".toList) (by decide) rfl

/-- The assistant row as first inserted by the C5 counterexample run
(raw text only — the display text, audio and timing are never written). -/
def c5msg0 : ChatMessageRec :=
  { message := none, original_message := ("partial".toList),
    messageType := ChatMessageType.AYUSHMA, language := ("hi".toList),
    reference_documents := [], ayushma_audio_url := none, top_k := some 1,
    temperature := some 0, meta := Meta.empty }

/-- C5 counterexample: a raising translation stage IS fatal to the
post-processing pipeline.  `handle_post_response` wraps none of its
enhancement stages in a `try`, so when `translate_text` raises, the
function aborts with outcome `raised`: the only persisted write is the
initial insert of the raw text (display text still absent), and the
final persistence step — the one the claim says is always reached with
whatever was computed — never executes. -/
theorem C5_translation_raise_skips_final_persistence :
    handle_post_response extBadTranslate ("partial".toList) 1 ("hi-IN".toList)
        0 Stats.empty ("hi".toList) true 5 =
      { outcome := PostOutcome.raised ("translation backend down".toList),
        saves := [c5msg0],
        stats := { Stats.empty with response_translation_start_time := some 5 },
        clock := 6, uploadCalls := 0 } := by
  decide

/-- The stats dictionary left by a default-language run whose speech
synthesis reported no audio. -/
def c5statsF (stats : Stats) (k : Nat) : Stats :=
  { stats with
    response_translation_end_time := some k, tts_start_time := some (k + 1),
    tts_end_time := some (k + 2) }

/-- The assistant row as first inserted for text `cr`. -/
def c5initMsg (cr : Str) (mn temp : Nat) (lang : Str) : ChatMessageRec :=
  { message := none, original_message := cr,
    messageType := ChatMessageType.AYUSHMA, language := lang,
    reference_documents := [], ayushma_audio_url := none, top_k := some mn,
    temperature := some temp, meta := Meta.empty }

/-- The finally persisted assistant row of such a run: display text set,
no audio reference, `meta` snapshotting the stats. -/
def c5finalMsg (cr : Str) (mn temp : Nat) (stats : Stats) (lang : Str)
    (k : Nat) : ChatMessageRec :=
  { c5initMsg cr mn temp lang with
    message := some cr, meta := metaFromStats (c5statsF stats k) }

/-- C5 (amended): only a speech-synthesis failure DELIVERED AS a `None`
result (no exception) degrades gracefully: the upload stage is skipped
and the pipeline still reaches the final persistence step, recording the
turn with the computed text, no audio reference, and the timing marks
written so far.  (A stage failure that raises instead aborts before that
step — see the counterexample.)  Stated for a default-language turn on
marker-free text. -/
theorem C5_tts_none_still_persists (ext : Externals) (cr : Str)
    (mn temp : Nat) (stats : Stats) (lang : Str) (k : Nat)
    (hnm : ¬ refMarker <:+: cr)
    (htts : ext.textToSpeech cr enIN = Except.ok none) :
    handle_post_response ext cr mn enIN temp stats lang true k =
      { outcome := PostOutcome.completed cr none (c5finalMsg cr mn temp stats lang k),
        saves := [c5initMsg cr mn temp lang, c5finalMsg cr mn temp stats lang k],
        stats := c5statsF stats k, clock := k + 3, uploadCalls := 0 } := by
  simp only [handle_post_response]
  rw [add_reference_documents_no_marker _ _ hnm]
  simp [htts, c5initMsg, c5statsF, c5finalMsg, truthyBytes]

/-- Witness for C5 (amended) at concrete inputs. -/
theorem C5_tts_none_still_persists_witness :
    handle_post_response extNoAudio ("partial".toList) 1 enIN 0 Stats.empty
        ("hi".toList) true 3 =
      { outcome := PostOutcome.completed ("partial".toList) none
          (c5finalMsg ("partial".toList) 1 0 Stats.empty ("hi".toList) 3),
        saves := [c5initMsg ("partial".toList) 1 0 ("hi".toList),
          c5finalMsg ("partial".toList) 1 0 Stats.empty ("hi".toList) 3],
        stats := c5statsF Stats.empty 3, clock := 6, uploadCalls := 0 } :=
  C5_tts_none_still_persists extNoAudio ("partial".toList) 1 0 Stats.empty
    ("hi".toList) 3 (by decide) rfl

/-- C6: for token-only arrival sequences (no sentinel), the `n`-th Delta
event of the streaming consumer carries the `n`-th token surviving
prefix suppression together with the cumulative text so far — the
concatenation, in push order, of the survivors up to and including
that token. -/
theorem C6_cumulative_is_ordered_concatenation (c : LoopCtx) (s : Stats)
    (k : Nat) (ts : List Str) (n : Nat)
    (h : n < (ts.drop skip_token).length) :
    (consumeLoop c s k skip_token [] [] (ts.map QueueValue.tok)).events.get? n =
      some (deltaEvent c ((ts.drop skip_token).getD n [])
        (((ts.drop skip_token).take (n + 1)).flatten)) := by
  rw [consumeLoop_skip_drop, ← List.map_drop, consumeLoop_toks]
  simpa using mkDeltas_get c (ts.drop skip_token) [] n h

/-- Witness tokens for C6: nine values filling the skip window, then two
surviving tokens. -/
def c6ts : List Str :=
  List.replicate 9 ("x".toList) ++ [("Hi".toList), (" there".toList)]

/-- Witness for C6 at concrete inputs: the second surviving Delta
carries token " there" and cumulative "Hi there". -/
theorem C6_cumulative_is_ordered_concatenation_witness :
    (consumeLoop loopCtx0 Stats.empty 0 skip_token [] []
        (c6ts.map QueueValue.tok)).events.get? 1 =
      some (deltaEvent loopCtx0 ((c6ts.drop skip_token).getD 1 [])
        (((c6ts.drop skip_token).take 2).flatten)) :=
  C6_cumulative_is_ordered_concatenation loopCtx0 Stats.empty 0 c6ts 1 (by decide)

/-- C7: marker extraction is idempotent — on assistant text in which the
`"References:"` marker does not occur, `add_reference_documents` leaves
the stored text (and every other field) unchanged, adds no reference
documents, and performs no persistence write. -/
theorem C7_no_marker_is_noop (documents : List Str) (m : ChatMessageRec)
    (h : ¬ refMarker <:+: m.original_message) :
    add_reference_documents documents m = (m, []) :=
  add_reference_documents_no_marker documents m h

/-- A marker-free assistant message used as the C7 witness. -/
def c7msg : ChatMessageRec :=
  { message := none, original_message := ("Hello there".toList),
    messageType := ChatMessageType.AYUSHMA, language := ("en".toList),
    reference_documents := [], ayushma_audio_url := none, top_k := none,
    temperature := none, meta := Meta.empty }

/-- Witness for C7 at concrete inputs. -/
theorem C7_no_marker_is_noop_witness :
    add_reference_documents ext0.documents c7msg = (c7msg, []) :=
  C7_no_marker_is_noop ext0.documents c7msg (by decide)

/-- C8: with speech synthesis disabled (`generate_audio = false`) and no
stale TTS/upload marks in the incoming stats, the post-processing run
makes zero upload calls, leaves the TTS/upload marks unset, and — if it
completes — persists a turn whose audio reference is `None` and whose
`meta` records no TTS or upload timing. -/
theorem C8_audio_disabled_no_tts_no_upload (ext : Externals) (cr : Str)
    (mn : Nat) (ul : Str) (temp : Nat) (stats : Stats) (lang : Str) (k : Nat)
    (h0 : stats.tts_start_time = none) (h1 : stats.tts_end_time = none)
    (h2 : stats.upload_start_time = none) (h3 : stats.upload_end_time = none) :
    audioDisabledInvariant
      (handle_post_response ext cr mn ul temp stats lang false k) = true := by
  simp only [handle_post_response]
  by_cases hul : ul = enIN
  · simp [hul, audioDisabledInvariant, noAudioRecorded, metaFromStats,
      truthyBytes, h0, h1, h2, h3]
  · simp only [ne_eq, hul, not_false_eq_true, if_true]
    split
    · next heq =>
      simp only [Prod.mk.injEq] at heq
      obtain ⟨-, hst, -⟩ := heq
      subst hst
      simp [audioDisabledInvariant, noAudioRecorded, h0, h1, h2, h3]
    · next heq =>
      simp only [Prod.mk.injEq] at heq
      obtain ⟨-, hst, hck⟩ := heq
      subst hst
      subst hck
      simp [audioDisabledInvariant, noAudioRecorded, metaFromStats,
        truthyBytes, h0, h1, h2, h3]

/-- Witness for C8 at concrete inputs (non-default language, fresh
stats). -/
theorem C8_audio_disabled_no_tts_no_upload_witness :
    audioDisabledInvariant
      (handle_post_response ext0 ("partial".toList) 1 ("hi-IN".toList) 0
        Stats.empty ("hi".toList) false 3) = true :=
  C8_audio_disabled_no_tts_no_upload ext0 ("partial".toList) 1
    ("hi-IN".toList) 0 Stats.empty ("hi".toList) 3 rfl rfl rfl rfl

/-- C9: the `stats={}` default argument of `converse` is one shared
mutable dictionary.  The same call `argsB` (speech synthesis disabled,
`stats` omitted) persists an assistant turn whose `meta.tts_start` is
absent when it is the only call, but PRESENT — carrying the TTS mark
written by an earlier, unrelated call `argsA` that also omitted `stats`
— when it runs second: two calls with identical arguments persist
different timing snapshots depending on prior calls. -/
theorem C9_shared_default_stats_leak :
    persistedTtsStartAt (runCalls ext0 Stats.empty 0 [argsB]).fst 0 =
        some none ∧
      persistedTtsStartAt (runCalls ext0 Stats.empty 0 [argsA, argsB]).fst 1 =
        some (some 5) := by
  decide

/-- C10: with a missing or empty OpenAI key, `converse` raises its key
exception as its very first action: no user or assistant Turn is
created, no reference retrieval and no model call happen, no event is
yielded, and the stats dictionary and clock are untouched. -/
theorem C10_missing_key_raises_before_effects (ext : Externals)
    (a : CallArgs) (stats : Stats) (clock : Nat)
    (h : a.openai_key = none ∨ a.openai_key = some []) :
    converse ext a stats clock =
      { events := [], yieldedTurn := none, created := [], stats := stats,
        clock := clock, refCalls := 0, llmCalls := 0, uploadCalls := 0,
        outcome := ConverseOutcome.raised keyErrorText } := by
  have hk : keyMissing a.openai_key = true := by
    rcases h with h | h <;> simp [keyMissing, h]
  simp [converse, hk]

/-- A call with a missing key, used as the C10 witness. -/
def args10 : CallArgs := { argsA with openai_key := none }

/-- Witness for C10 at concrete inputs. -/
theorem C10_missing_key_raises_before_effects_witness :
    converse ext0 args10 Stats.empty 0 =
      { events := [], yieldedTurn := none, created := [], stats := Stats.empty,
        clock := 0, refCalls := 0, llmCalls := 0, uploadCalls := 0,
        outcome := ConverseOutcome.raised keyErrorText } :=
  C10_missing_key_raises_before_effects ext0 args10 Stats.empty 0 (Or.inl rfl)
